import Mathlib

/-!
Shallow embedding of `src/main.py` (FaceGeneratorBot).

The bot's side effects (HTTP fetches, temporary-file writes/removes, and the
Telegram transport calls: send_message, edit_message_text, delete_message,
send_media_group, send_photo, register_next_step_handler) are recorded as an
explicit trace of `Event`s.  The outside world is an `Env` of oracles saying
which network fetch attempts succeed and with what payload, and which
transport edits / grouped sends / deletes succeed.  A Python exception that
propagates out of a handler is modelled as an `Outcome` value paired with the
trace of events that happened before the exception was raised; Python code
that catches an exception and continues is modelled by recording the
attempted event and continuing regardless of the oracle's verdict.

Modelling conventions:
  - Chat ids and message ids are `Nat`.  When a handler for an incoming
    message with id `m` sends a message, the transport assigns ids
    `m + 1, m + 2, ...`; only the identity/equality of these handles matters
    to the code (the progress message id, and `message.id - 1` deletions).
  - `uuid.uuid4()` filenames are modelled as distinct names indexed by the
    run's fetch counter (`fname k` for the k-th fetch of the run).
  - Binary payloads are `List Nat` (byte lists).  The code never inspects
    payloads, it only moves them around.
  - `bot.send_message` and `bot.send_photo` are assumed to succeed; no claim
    concerns their failure.  `requests.get` (keyed per fetch attempt),
    `edit_message_text` (keyed per loop iteration), `send_media_group`
    (keyed by the iteration at which the send happens) and `delete_message`
    (keyed by the id of the message being deleted) can each fail per `Env`.
  - Python `str.strip` / `str.lower` / `int(...)` are modelled over the
    character ranges the program actually meets (ASCII plus the Cyrillic
    alphabet for `lower`); CPython additionally lowers/strips other Unicode
    ranges and accepts non-ASCII digits, which this program never relies on.
-/

namespace FaceBot

/-- Line 11: the fixed upstream resource URL. -/
def IMAGE_URL : String := "https://thispersondoesnotexist.com/"

/-- Line 12: maximum accepted custom quantity. -/
def MAX_IMAGES : Nat := 100

/-- Line 13: delivery group size. -/
def GROUP_SIZE : Nat := 9

/-- Lines 16-28, `create_main_markup`: button labels of the main menu
keyboard. -/
def create_main_markup : List String :=
  ["Получить изображение", "Получить 9 изображений", "Своё количество"]

/-- Lines 31-45, `create_quantity_markup`: button labels of the quantity
keyboard. -/
def create_quantity_markup : List String :=
  ["Назад", "30", "60", "90"]

/-- One observable side effect of the program. -/
inductive Event where
  | httpGet (url : String)
  | fileWrite (filename : String) (content : List Nat)
  | fileRemove (filename : String)
  | sendMsg (chat : Nat) (text : String) (msgId : Nat) (markup : Option (List String))
  | editMsg (chat : Nat) (msgId : Nat) (text : String)
  | delMsg (chat : Nat) (msgId : Nat) (ok : Bool)
  | mediaGroup (chat : Nat) (imgs : List (List Nat))
  | photo (chat : Nat) (content : List Nat)
  | registerNextStep (msgId : Nat)
  deriving DecidableEq

/-- How a handler terminated abnormally: the Python exception that propagated
out of it (requests error, telebot ApiTelegramException from
`edit_message_text`, or from `send_media_group`). -/
inductive Outcome where
  | fetchError
  | editError
  | deliveryError
  deriving DecidableEq

/-- The outside world: which external calls succeed and what the upstream
returns.  `fetchOk k` / `fetchContent k` concern the k-th fetch attempt of a
run (0-based); `editOk k` the edit of iteration k (0-based); `groupOk i` the
grouped send performed at loop iteration i; `deleteOk mid` the deletion of
message `mid`. -/
structure Env where
  fetchOk : Nat → Bool
  fetchContent : Nat → List Nat
  editOk : Nat → Bool
  groupOk : Nat → Bool
  deleteOk : Nat → Bool

/-- Temporary filename for the k-th fetch of a run (models the fresh
`uuid.uuid4()` names, which are pairwise distinct). -/
def fname (k : Nat) : String := "img" ++ toString k ++ ".jpg"

/-- Lines 48-58, `download_image`: issue one GET against `IMAGE_URL`; if the
network call raises, the exception propagates (`none`); otherwise whatever
`response.content` holds — image or not, empty or not — is written to a fresh
temporary file and the filename returned.  The payload is never validated. -/
def download_image (env : Env) (k : Nat) : List Event × Option String :=
  if env.fetchOk k then
    ([Event.httpGet IMAGE_URL, Event.fileWrite (fname k) (env.fetchContent k)],
     some (fname k))
  else
    ([Event.httpGet IMAGE_URL], none)

/-- Progress text written by `edit_message_text` in both loops
(lines 148 and 236: the two f-strings are identical). -/
def progressEditText (i count : Nat) : String :=
  "Генерация " ++ toString i ++ "/" ++ toString count ++
    ". Пожалуйста, не отправляйте сообщения."

/-- Line 135: initial progress text of `send_multiple_images`. -/
def initTextMulti (count : Nat) : String :=
  "Генерация 0/" ++ toString count ++
    ". Пожалуйста, не отправляйте сообщения, пока процесс не завершится."

/-- Line 222: initial progress text of `generate_custom_images`. -/
def initTextCustom (count : Nat) : String :=
  "Генерация 0/" ++ toString count ++ ". Пожалуйста, не отправляйте сообщения."

/-- Lines 120, 163, 251: completion text. -/
def doneText : String := "Готово! Выберите следующую команду"

/-- Line 100: fallback text of `handle_text`. -/
def mainPageText : String := "Главная страница"

/-- Line 174: custom-quantity prompt text. -/
def promptText : String := "Напишите, сколько лиц сгенерировать. Максимум 100"

/-- Line 189: text sent when the user escapes back to the main menu. -/
def backText : String := "Вы вернулись на главную страницу"

/-- Line 201: re-prompt text on invalid quantity input. -/
def retryText : String := "Введите число от 1 до 100"

/-- Lines 139-153: the `for i in range(1, count + 1)` loop body of
`send_multiple_images`, iterated over the list of loop indices.  State:
`images` is the current batch, `filenames` the files written so far.  Returns
the events of the remaining iterations, the final `filenames` list, and the
exception (if any) that aborted the loop.  A failed `download_image` or
`edit_message_text` or `send_media_group` raises and propagates (the code has
no try/except around the loop). -/
def imageLoop (env : Env) (chat pid count : Nat) :
    List Nat → List (List Nat) → List String →
    List Event × List String × Option Outcome
  | [], _, filenames => ([], filenames, none)
  | i :: rest, images, filenames =>
    let dl := download_image env (i - 1)
    match dl.2 with
    | none => (dl.1, filenames, some Outcome.fetchError)
    | some filename =>
      let filenames2 := filenames ++ [filename]
      let images2 := images ++ [env.fetchContent (i - 1)]
      let evts1 := dl.1 ++ [Event.editMsg chat pid (progressEditText i count)]
      if env.editOk (i - 1) = false then
        (evts1, filenames2, some Outcome.editError)
      else if images2.length = GROUP_SIZE ∨ i = count then
        if env.groupOk i = false then
          (evts1 ++ [Event.mediaGroup chat images2], filenames2,
           some Outcome.deliveryError)
        else
          let r := imageLoop env chat pid count rest [] filenames2
          (evts1 ++ Event.mediaGroup chat images2 :: r.1, r.2.1, r.2.2)
      else
        let r := imageLoop env chat pid count rest images2 filenames2
        (evts1 ++ r.1, r.2.1, r.2.2)

/-- Lines 226-241: the loop body of `generate_custom_images`.  Identical to
the loop of `send_multiple_images` except that it additionally increments a
`sent` counter each iteration (line 232) and uses `sent` rather than `i` in
the edit text (line 236). -/
def gciLoop (env : Env) (chat pid total_count : Nat) :
    List Nat → List (List Nat) → List String → Nat →
    List Event × List String × Option Outcome
  | [], _, filenames, _ => ([], filenames, none)
  | i :: rest, images, filenames, sent =>
    let dl := download_image env (i - 1)
    match dl.2 with
    | none => (dl.1, filenames, some Outcome.fetchError)
    | some filename =>
      let filenames2 := filenames ++ [filename]
      let images2 := images ++ [env.fetchContent (i - 1)]
      let sent2 := sent + 1
      let evts1 := dl.1 ++ [Event.editMsg chat pid (progressEditText sent2 total_count)]
      if env.editOk (i - 1) = false then
        (evts1, filenames2, some Outcome.editError)
      else if images2.length = GROUP_SIZE ∨ i = total_count then
        if env.groupOk i = false then
          (evts1 ++ [Event.mediaGroup chat images2], filenames2,
           some Outcome.deliveryError)
        else
          let r := gciLoop env chat pid total_count rest [] filenames2 sent2
          (evts1 ++ Event.mediaGroup chat images2 :: r.1, r.2.1, r.2.2)
      else
        let r := gciLoop env chat pid total_count rest images2 filenames2 sent2
        (evts1 ++ r.1, r.2.1, r.2.2)

/-- Lines 155-163 (and identically 243-251): after the loop completes without
an exception: try to delete the progress message (failure swallowed by the
bare except), remove every file in `filenames`, send the completion message
with the main menu keyboard. -/
def runPostlude (env : Env) (chat pid : Nat) (filenames : List String) :
    List Event :=
  Event.delMsg chat pid (env.deleteOk pid) ::
    (filenames.map Event.fileRemove ++
      [Event.sendMsg chat doneText (pid + 1) (some create_main_markup)])

/-- Lines 123-163, `send_multiple_images`: send the initial progress message
(handle `m + 1`), run the fetch/deliver loop over i = 1..count, and on
success run the postlude; an exception in the loop propagates, skipping the
postlude (no cleanup, no further messages). -/
def send_multiple_images (env : Env) (chat m count : Nat) :
    List Event × Option Outcome :=
  let pid := m + 1
  let r := imageLoop env chat pid count (List.range' 1 count) [] []
  match r.2.2 with
  | some e => (Event.sendMsg chat (initTextMulti count) pid none :: r.1, some e)
  | none =>
    (Event.sendMsg chat (initTextMulti count) pid none ::
      (r.1 ++ runPostlude env chat pid r.2.1), none)

/-- Lines 208-251, `generate_custom_images`: identical to
`send_multiple_images` except for the initial progress text and the `sent`
counter (which always equals the loop index). -/
def generate_custom_images (env : Env) (chat m total_count : Nat) :
    List Event × Option Outcome :=
  let pid := m + 1
  let r := gciLoop env chat pid total_count (List.range' 1 total_count) [] [] 0
  match r.2.2 with
  | some e => (Event.sendMsg chat (initTextCustom total_count) pid none :: r.1, some e)
  | none =>
    (Event.sendMsg chat (initTextCustom total_count) pid none ::
      (r.1 ++ runPostlude env chat pid r.2.1), none)

/-- Lines 103-120, `send_single_image`: one fetch (exception propagates), one
plain `send_photo` of the content, remove the file, try to delete the user's
triggering message `m` (failure swallowed), send the completion message.  No
progress message and no grouped send on this path. -/
def send_single_image (env : Env) (chat m : Nat) : List Event × Option Outcome :=
  let dl := download_image env 0
  match dl.2 with
  | none => (dl.1, some Outcome.fetchError)
  | some filename =>
    (dl.1 ++
      [Event.photo chat (env.fetchContent 0),
       Event.fileRemove filename,
       Event.delMsg chat m (env.deleteOk m),
       Event.sendMsg chat doneText (m + 1) (some create_main_markup)], none)

/-- Lines 166-178, `ask_for_custom_quantity`: send the prompt with the
quantity keyboard and register `handle_custom_quantity` as the next-step
handler on it. -/
def ask_for_custom_quantity (env : Env) (chat m : Nat) :
    List Event × Option Outcome :=
  ([Event.sendMsg chat promptText (m + 1) (some create_quantity_markup),
    Event.registerNextStep (m + 1)], none)

/-- Python `str.lower` on the characters this program meets: ASCII letters
and the Cyrillic alphabet (А-Я and Ё). -/
def pyLowerChar (c : Char) : Char :=
  if 'A' ≤ c ∧ c ≤ 'Z' then Char.ofNat (c.toNat + 32)
  else if 'А' ≤ c ∧ c ≤ 'Я' then Char.ofNat (c.toNat + 32)
  else if c = 'Ё' then 'ё'
  else c

/-- Python `str.lower` over a whole string. -/
def pyToLower (s : String) : String := String.mk (s.data.map pyLowerChar)

/-- Python `str.strip` (whitespace from both ends). -/
def pyStrip (s : String) : String :=
  String.mk
    (((s.data.dropWhile Char.isWhitespace).reverse.dropWhile
        Char.isWhitespace).reverse)

/-- The digit group of a Python integer literal after the optional sign:
nonempty, made of ASCII digits with single underscores allowed strictly
between digits. -/
def digitsTail : List Char → Bool
  | [] => true
  | c :: cs =>
    if c.isDigit then digitsTail cs
    else if c = '_' then
      match cs with
      | [] => false
      | d :: cs2 => d.isDigit && digitsTail cs2
    else false

/-- A valid digit group: starts with a digit, rest per `digitsTail`. -/
def digitsValid : List Char → Bool
  | [] => false
  | c :: cs => c.isDigit && digitsTail cs

/-- Numeric value of a digit group, skipping underscores. -/
def digitsVal (l : List Char) : Nat :=
  l.foldl (fun a c => if c.isDigit then a * 10 + (c.toNat - 48) else a) 0

/-- Python `int(text)` on a string: strip whitespace, optional single sign,
then a digit group; `none` models the `ValueError`. -/
def pyParseInt (s : String) : Option Int :=
  match (pyStrip s).data with
  | [] => none
  | c :: rest =>
    if c = '+' then
      if digitsValid rest then some (Int.ofNat (digitsVal rest)) else none
    else if c = '-' then
      if digitsValid rest then some (-(Int.ofNat (digitsVal rest))) else none
    else if digitsValid (c :: rest) then
      some (Int.ofNat (digitsVal (c :: rest)))
    else none

/-- Lines 181-205, `handle_custom_quantity`: on the text of the next message
after the quantity prompt — `'назад'` (lowercased, not stripped) returns to
the main menu; an `int(...)`-parsable value in 1..MAX_IMAGES starts
`generate_custom_images` with that count; anything else (ValueError from
`int`, or out of range) re-prompts and re-registers this handler. -/
def handle_custom_quantity (env : Env) (chat m : Nat) (text : String) :
    List Event × Option Outcome :=
  if pyToLower text = "назад" then
    ([Event.sendMsg chat backText (m + 1) (some create_main_markup)], none)
  else
    match pyParseInt text with
    | some q =>
      if 1 ≤ q ∧ q ≤ (MAX_IMAGES : Int) then
        generate_custom_images env chat m q.toNat
      else
        ([Event.sendMsg chat retryText (m + 1) (some create_quantity_markup),
          Event.registerNextStep (m + 1)], none)
    | none =>
      ([Event.sendMsg chat retryText (m + 1) (some create_quantity_markup),
        Event.registerNextStep (m + 1)], none)

/-- Lines 90-100 of `handle_text`: the dispatch on the stripped, lowercased
text `t` to one of the three menu actions, or the fall-through main-page
message. -/
def handle_text_branch (env : Env) (chat m : Nat) (t : String) :
    List Event × Option Outcome :=
  if t = "получить изображение" then send_single_image env chat m
  else if t = "получить 9 изображений" then send_multiple_images env chat m 9
  else if t = "своё количество" then ask_for_custom_quantity env chat m
  else
    ([Event.sendMsg chat mainPageText (m + 1) (some create_main_markup)], none)

/-- Lines 76-100, `handle_text`: on any incoming free-text message `m`,
first try to delete the message with id `m - 1` (failure caught and
swallowed at lines 85-88), then dispatch per `handle_text_branch`. -/
def handle_text (env : Env) (chat m : Nat) (text : String) :
    List Event × Option Outcome :=
  let t := pyToLower (pyStrip text)
  let r := handle_text_branch env chat m t
  (Event.delMsg chat (m - 1) (env.deleteOk (m - 1)) :: r.1, r.2)

/-! ## Trace projections -/

/-- The HTTP fetch attempts in a trace. -/
def fetchEvents (t : List Event) : List Event :=
  t.filter fun e => match e with | Event.httpGet _ => true | _ => false

/-- Number of fetch calls issued. -/
def countFetches (t : List Event) : Nat := (fetchEvents t).length

/-- The progress-edit events in a trace, in order. -/
def editEvents (t : List Event) : List Event :=
  t.filter fun e => match e with | Event.editMsg _ _ _ => true | _ => false

/-- Sizes of the delivered grouped-media batches, in delivery order. -/
def groupSizes (t : List Event) : List Nat :=
  t.filterMap fun e =>
    match e with | Event.mediaGroup _ imgs => some imgs.length | _ => none

/-- Names of the temporary files written, in order. -/
def writtenFiles (t : List Event) : List String :=
  t.filterMap fun e =>
    match e with | Event.fileWrite f _ => some f | _ => none

/-- Names of the temporary files removed, in order. -/
def removedFiles (t : List Event) : List String :=
  t.filterMap fun e =>
    match e with | Event.fileRemove f => some f | _ => none

/-- The send-message events in a trace (new messages, as opposed to in-place
edits). -/
def sentMessages (t : List Event) : List Event :=
  t.filter fun e => match e with | Event.sendMsg _ _ _ _ => true | _ => false

/-- Sizes of the grouped deliveries produced by the loop, computed from the
size `cur` of the current batch and the number `len` of iterations left:
flush after an iteration when the batch reaches `GROUP_SIZE` or it is the
final iteration. -/
def groupSizesAux : Nat → Nat → List Nat
  | _, 0 => []
  | cur, len + 1 =>
    if cur + 1 = GROUP_SIZE ∨ len = 0 then
      (cur + 1) :: groupSizesAux 0 len
    else
      groupSizesAux (cur + 1) len

/-! ## Projection helper lemmas -/

theorem countFetches_append (a b : List Event) :
    countFetches (a ++ b) = countFetches a + countFetches b := by
  simp [countFetches, fetchEvents, List.filter_append]

theorem editEvents_append (a b : List Event) :
    editEvents (a ++ b) = editEvents a ++ editEvents b := by
  simp [editEvents, List.filter_append]

theorem groupSizes_append (a b : List Event) :
    groupSizes (a ++ b) = groupSizes a ++ groupSizes b := by
  simp [groupSizes, List.filterMap_append]

theorem writtenFiles_append (a b : List Event) :
    writtenFiles (a ++ b) = writtenFiles a ++ writtenFiles b := by
  simp [writtenFiles, List.filterMap_append]

theorem removedFiles_append (a b : List Event) :
    removedFiles (a ++ b) = removedFiles a ++ removedFiles b := by
  simp [removedFiles, List.filterMap_append]

theorem sentMessages_append (a b : List Event) :
    sentMessages (a ++ b) = sentMessages a ++ sentMessages b := by
  simp [sentMessages, List.filter_append]

theorem countFetches_fileRemoves (fns : List String) :
    countFetches (fns.map Event.fileRemove) = 0 := by
  induction fns with
  | nil => rfl
  | cons a l ih =>
    simp [countFetches, fetchEvents, List.filter_cons]

theorem editEvents_fileRemoves (fns : List String) :
    editEvents (fns.map Event.fileRemove) = [] := by
  induction fns with
  | nil => rfl
  | cons a l ih =>
    simp [editEvents, List.filter_cons]

theorem groupSizes_fileRemoves (fns : List String) :
    groupSizes (fns.map Event.fileRemove) = [] := by
  induction fns with
  | nil => rfl
  | cons a l ih =>
    simp [groupSizes, List.filterMap_cons]

theorem writtenFiles_fileRemoves (fns : List String) :
    writtenFiles (fns.map Event.fileRemove) = [] := by
  induction fns with
  | nil => rfl
  | cons a l ih =>
    simp [writtenFiles, List.filterMap_cons]

theorem sentMessages_fileRemoves (fns : List String) :
    sentMessages (fns.map Event.fileRemove) = [] := by
  induction fns with
  | nil => rfl
  | cons a l ih =>
    simp [sentMessages, List.filter_cons]

theorem removedFiles_fileRemoves (fns : List String) :
    removedFiles (fns.map Event.fileRemove) = fns := by
  induction fns with
  | nil => rfl
  | cons a l ih =>
    simp only [List.map_cons, removedFiles, List.filterMap_cons]
    exact congrArg (List.cons a) ih

/-- Projections of the success postlude: no fetches, edits, groups or writes;
it removes exactly `filenames` and sends exactly the completion message. -/
theorem proj_runPostlude (env : Env) (chat pid : Nat) (filenames : List String) :
    countFetches (runPostlude env chat pid filenames) = 0 ∧
    editEvents (runPostlude env chat pid filenames) = [] ∧
    groupSizes (runPostlude env chat pid filenames) = [] ∧
    writtenFiles (runPostlude env chat pid filenames) = [] ∧
    removedFiles (runPostlude env chat pid filenames) = filenames ∧
    sentMessages (runPostlude env chat pid filenames) =
      [Event.sendMsg chat doneText (pid + 1) (some create_main_markup)] := by
  have h1 := countFetches_fileRemoves filenames
  have h2 := editEvents_fileRemoves filenames
  have h3 := groupSizes_fileRemoves filenames
  have h4 := writtenFiles_fileRemoves filenames
  have h5 := sentMessages_fileRemoves filenames
  have h6 := removedFiles_fileRemoves filenames
  simp [countFetches, fetchEvents, editEvents, groupSizes, writtenFiles,
    removedFiles, sentMessages] at h1 h2 h3 h4 h5 h6
  refine ⟨?_, ?_, ?_, ?_, ?_, ?_⟩ <;>
    simp [runPostlude, countFetches, fetchEvents, editEvents, groupSizes,
      writtenFiles, removedFiles, sentMessages, List.filter_cons,
      List.filterMap_cons, List.filter_append, List.filterMap_append,
      h1, h2, h3, h4, h5, h6]

/-! ## One-step unfolding of the fetch/deliver loop -/

/-- A loop iteration whose fetch fails: one GET is attempted, the exception
propagates. -/
theorem imageLoop_cons_fetchFail (env : Env) (chat pid count j : Nat)
    (rest : List Nat) (b : List (List Nat)) (fns : List String)
    (hfj : env.fetchOk (j - 1) = false) :
    imageLoop env chat pid count (j :: rest) b fns =
      ([Event.httpGet IMAGE_URL], fns, some Outcome.fetchError) := by
  simp [imageLoop, download_image, hfj]

/-- A successful loop iteration that flushes the batch. -/
theorem imageLoop_cons_flush (env : Env) (chat pid count j : Nat)
    (rest : List Nat) (b : List (List Nat)) (fns : List String)
    (hfj : env.fetchOk (j - 1) = true) (hej : env.editOk (j - 1) = true)
    (hgj : env.groupOk j = true)
    (hcond : (b ++ [env.fetchContent (j - 1)]).length = GROUP_SIZE ∨ j = count) :
    imageLoop env chat pid count (j :: rest) b fns =
      ([Event.httpGet IMAGE_URL,
        Event.fileWrite (fname (j - 1)) (env.fetchContent (j - 1)),
        Event.editMsg chat pid (progressEditText j count),
        Event.mediaGroup chat (b ++ [env.fetchContent (j - 1)])] ++
         (imageLoop env chat pid count rest [] (fns ++ [fname (j - 1)])).1,
       (imageLoop env chat pid count rest [] (fns ++ [fname (j - 1)])).2.1,
       (imageLoop env chat pid count rest [] (fns ++ [fname (j - 1)])).2.2) := by
  have hc2 : b.length + 1 = GROUP_SIZE ∨ j = count := by simpa using hcond
  simp [imageLoop, download_image, hfj, hej, hgj, hc2]

/-- A successful loop iteration that keeps accumulating. -/
theorem imageLoop_cons_noflush (env : Env) (chat pid count j : Nat)
    (rest : List Nat) (b : List (List Nat)) (fns : List String)
    (hfj : env.fetchOk (j - 1) = true) (hej : env.editOk (j - 1) = true)
    (hcond : ¬ ((b ++ [env.fetchContent (j - 1)]).length = GROUP_SIZE ∨ j = count)) :
    imageLoop env chat pid count (j :: rest) b fns =
      ([Event.httpGet IMAGE_URL,
        Event.fileWrite (fname (j - 1)) (env.fetchContent (j - 1)),
        Event.editMsg chat pid (progressEditText j count)] ++
         (imageLoop env chat pid count rest (b ++ [env.fetchContent (j - 1)])
            (fns ++ [fname (j - 1)])).1,
       (imageLoop env chat pid count rest (b ++ [env.fetchContent (j - 1)])
          (fns ++ [fname (j - 1)])).2.1,
       (imageLoop env chat pid count rest (b ++ [env.fetchContent (j - 1)])
          (fns ++ [fname (j - 1)])).2.2) := by
  have hc2 : ¬ (b.length + 1 = GROUP_SIZE ∨ j = count) := by simpa using hcond
  simp [imageLoop, download_image, hfj, hej, hc2]

/-! ## The two loops are the same computation

In the source, the loop bodies of `send_multiple_images` (lines 139-153) and
`generate_custom_images` (lines 226-241) are identical except that the latter
tracks an extra counter `sent`, incremented once per iteration from 0, so
`sent = i` whenever it is read. -/

theorem gciLoop_eq_imageLoop (env : Env) (chat pid n : Nat) :
    ∀ len i b fns,
      gciLoop env chat pid n (List.range' (i + 1) len) b fns i =
      imageLoop env chat pid n (List.range' (i + 1) len) b fns := by
  intro len
  induction len with
  | zero => intro i b fns; rfl
  | succ len ih =>
    intro i b fns
    rw [List.range'_succ]
    simp only [gciLoop, imageLoop, Nat.add_sub_cancel]
    cases hdl : (download_image env i).2 with
    | none => simp [hdl]
    | some filename =>
      simp only [hdl]
      by_cases hed : env.editOk i = false
      · simp [hed]
      · by_cases hfl : b.length + 1 = GROUP_SIZE ∨ i + 1 = n
        · by_cases hgp : env.groupOk (i + 1) = false
          · simp [hed, hfl, hgp]
          · simp [hed, hfl, hgp, ih (i + 1)]
        · simp [hed, hfl, ih (i + 1)]

/-! ## Success-path characterization of the loop -/

theorem imageLoop_success (env : Env) (chat pid n : Nat)
    (hf : ∀ j, env.fetchOk j = true) (he : ∀ j, env.editOk j = true)
    (hg : ∀ j, env.groupOk j = true) :
    ∀ len i b fns, i + len = n → b.length < GROUP_SIZE →
      countFetches (imageLoop env chat pid n (List.range' (i + 1) len) b fns).1
        = len ∧
      editEvents (imageLoop env chat pid n (List.range' (i + 1) len) b fns).1 =
        (List.range' (i + 1) len).map
          (fun j => Event.editMsg chat pid (progressEditText j n)) ∧
      groupSizes (imageLoop env chat pid n (List.range' (i + 1) len) b fns).1 =
        groupSizesAux b.length len ∧
      writtenFiles (imageLoop env chat pid n (List.range' (i + 1) len) b fns).1 =
        (List.range' i len).map fname ∧
      removedFiles (imageLoop env chat pid n (List.range' (i + 1) len) b fns).1
        = [] ∧
      sentMessages (imageLoop env chat pid n (List.range' (i + 1) len) b fns).1
        = [] ∧
      (imageLoop env chat pid n (List.range' (i + 1) len) b fns).2.1 =
        fns ++ (List.range' i len).map fname ∧
      (imageLoop env chat pid n (List.range' (i + 1) len) b fns).2.2 = none := by
  intro len
  induction len with
  | zero =>
    intro i b fns hlen hb
    simp [imageLoop, countFetches, fetchEvents, editEvents, groupSizes,
      writtenFiles, removedFiles, sentMessages, groupSizesAux]
  | succ len ih =>
    intro i b fns hlen hb
    have hfi : env.fetchOk (i + 1 - 1) = true := hf _
    have hei : env.editOk (i + 1 - 1) = true := he _
    have hgi : env.groupOk (i + 1) = true := hg _
    rw [List.range'_succ]
    by_cases hfl :
        (b ++ [env.fetchContent (i + 1 - 1)]).length = GROUP_SIZE ∨ i + 1 = n
    · rw [imageLoop_cons_flush env chat pid n (i + 1) _ b fns hfi hei hgi hfl]
      simp only [Nat.add_sub_cancel] at *
      have IH := ih (i + 1) [] (fns ++ [fname i]) (by omega)
        (by simp [GROUP_SIZE])
      have haux : b.length + 1 = GROUP_SIZE ∨ len = 0 := by
        rcases hfl with h | h
        · left; simpa using h
        · right; omega
      refine ⟨?_, ?_, ?_, ?_, ?_, ?_, ?_, ?_⟩
      · rw [countFetches_append, IH.1]
        simp only [countFetches, fetchEvents, List.filter_cons]
        simp
        omega
      · rw [editEvents_append, IH.2.1]
        simp [editEvents, List.filter_cons]
      · rw [groupSizes_append, IH.2.2.1]
        have hgx : groupSizesAux b.length (len + 1) =
            (b.length + 1) :: groupSizesAux 0 len := by
          rw [groupSizesAux, if_pos haux]
        rw [hgx]
        simp [groupSizes, List.filterMap_cons]
      · rw [writtenFiles_append, IH.2.2.2.1, List.range'_succ, List.map_cons]
        simp [writtenFiles, List.filterMap_cons]
      · rw [removedFiles_append, IH.2.2.2.2.1]
        simp [removedFiles, List.filterMap_cons]
      · rw [sentMessages_append, IH.2.2.2.2.2.1]
        simp [sentMessages, List.filter_cons]
      · rw [IH.2.2.2.2.2.2.1, List.range'_succ, List.map_cons]
        simp
      · exact IH.2.2.2.2.2.2.2
    · rw [imageLoop_cons_noflush env chat pid n (i + 1) _ b fns hfi hei hfl]
      simp only [Nat.add_sub_cancel] at *
      have hb2 : (b ++ [env.fetchContent i]).length < GROUP_SIZE := by
        simp only [not_or] at hfl
        have := hfl.1
        simp only [List.length_append, List.length_singleton] at this ⊢
        omega
      have hlen0 : len ≠ 0 := by
        intro h
        exact hfl (Or.inr (by omega))
      have IH := ih (i + 1) (b ++ [env.fetchContent i]) (fns ++ [fname i])
        (by omega) hb2
      have hauxn : ¬ (b.length + 1 = GROUP_SIZE ∨ len = 0) := by
        simp only [not_or] at hfl ⊢
        constructor
        · intro h; exact hfl.1 (by simpa using h)
        · exact hlen0
      refine ⟨?_, ?_, ?_, ?_, ?_, ?_, ?_, ?_⟩
      · rw [countFetches_append, IH.1]
        simp only [countFetches, fetchEvents, List.filter_cons]
        simp
        omega
      · rw [editEvents_append, IH.2.1]
        simp [editEvents, List.filter_cons]
      · rw [groupSizes_append, IH.2.2.1]
        have hgx : groupSizesAux b.length (len + 1) =
            groupSizesAux (b.length + 1) len := by
          rw [groupSizesAux, if_neg hauxn]
        rw [hgx]
        simp [groupSizes, List.filterMap_cons, List.length_append]
      · rw [writtenFiles_append, IH.2.2.2.1, List.range'_succ, List.map_cons]
        simp [writtenFiles, List.filterMap_cons]
      · rw [removedFiles_append, IH.2.2.2.2.1]
        simp [removedFiles, List.filterMap_cons]
      · rw [sentMessages_append, IH.2.2.2.2.2.1]
        simp [sentMessages, List.filter_cons]
      · rw [IH.2.2.2.2.2.2.1, List.range'_succ, List.map_cons]
        simp
      · exact IH.2.2.2.2.2.2.2

/-! ## Failing-fetch characterization of the loop -/

theorem imageLoop_fetchFail (env : Env) (chat pid n K : Nat)
    (he : ∀ j, env.editOk j = true) (hg : ∀ j, env.groupOk j = true)
    (hf : ∀ j, j < K → env.fetchOk j = true) (hfail : env.fetchOk K = false) :
    ∀ len i b fns, i + len = n → b.length < GROUP_SIZE → i ≤ K → K < i + len →
      countFetches (imageLoop env chat pid n (List.range' (i + 1) len) b fns).1
        = K + 1 - i ∧
      removedFiles (imageLoop env chat pid n (List.range' (i + 1) len) b fns).1
        = [] ∧
      sentMessages (imageLoop env chat pid n (List.range' (i + 1) len) b fns).1
        = [] ∧
      (∀ s ∈ groupSizes
          (imageLoop env chat pid n (List.range' (i + 1) len) b fns).1,
        s = GROUP_SIZE) ∧
      writtenFiles (imageLoop env chat pid n (List.range' (i + 1) len) b fns).1
        = (List.range' i (K - i)).map fname ∧
      (imageLoop env chat pid n (List.range' (i + 1) len) b fns).2.2 =
        some Outcome.fetchError := by
  intro len
  induction len with
  | zero => intro i b fns hlen hb hik hK; omega
  | succ len ih =>
    intro i b fns hlen hb hik hK
    rw [List.range'_succ]
    by_cases hiK : i = K
    · subst hiK
      rw [imageLoop_cons_fetchFail env chat pid n (i + 1) _ b fns
        (by simpa using hfail)]
      refine ⟨?_, ?_, ?_, ?_, ?_, ?_⟩ <;>
        simp [countFetches, fetchEvents, removedFiles, sentMessages,
          groupSizes, writtenFiles, List.filter_cons, List.filterMap_cons]
    · have hik2 : i < K := lt_of_le_of_ne hik hiK
      have hfi : env.fetchOk (i + 1 - 1) = true := by
        simpa using hf i hik2
      have hei : env.editOk (i + 1 - 1) = true := he _
      have hgi : env.groupOk (i + 1) = true := hg _
      have hin : ¬ i + 1 = n := by omega
      by_cases hfl :
          (b ++ [env.fetchContent (i + 1 - 1)]).length = GROUP_SIZE ∨ i + 1 = n
      · have hsz : (b ++ [env.fetchContent (i + 1 - 1)]).length = GROUP_SIZE := by
          rcases hfl with h | h
          · exact h
          · exact absurd h hin
        rw [imageLoop_cons_flush env chat pid n (i + 1) _ b fns hfi hei hgi hfl]
        simp only [Nat.add_sub_cancel] at *
        have IH := ih (i + 1) [] (fns ++ [fname i]) (by omega)
          (by simp [GROUP_SIZE]) (by omega) (by omega)
        refine ⟨?_, ?_, ?_, ?_, ?_, ?_⟩
        · rw [countFetches_append, IH.1]
          simp only [countFetches, fetchEvents, List.filter_cons]
          simp
          omega
        · rw [removedFiles_append, IH.2.1]
          simp [removedFiles, List.filterMap_cons]
        · rw [sentMessages_append, IH.2.2.1]
          simp [sentMessages, List.filter_cons]
        · intro s hs
          rw [groupSizes_append] at hs
          rcases List.mem_append.mp hs with h | h
          · simp [groupSizes, List.filterMap_cons] at h
            have hsz2 : b.length + 1 = GROUP_SIZE := by simpa using hsz
            omega
          · exact IH.2.2.2.1 s h
        · rw [writtenFiles_append, IH.2.2.2.2.1]
          have hKi : K - i = (K - (i + 1)) + 1 := by omega
          rw [hKi, List.range'_succ, List.map_cons]
          simp [writtenFiles, List.filterMap_cons]
        · exact IH.2.2.2.2.2
      · rw [imageLoop_cons_noflush env chat pid n (i + 1) _ b fns hfi hei hfl]
        simp only [Nat.add_sub_cancel] at *
        have hb2 : (b ++ [env.fetchContent i]).length < GROUP_SIZE := by
          simp only [not_or] at hfl
          have := hfl.1
          simp only [List.length_append, List.length_singleton] at this ⊢
          omega
        have IH := ih (i + 1) (b ++ [env.fetchContent i]) (fns ++ [fname i])
          (by omega) hb2 (by omega) (by omega)
        refine ⟨?_, ?_, ?_, ?_, ?_, ?_⟩
        · rw [countFetches_append, IH.1]
          simp only [countFetches, fetchEvents, List.filter_cons]
          simp
          omega
        · rw [removedFiles_append, IH.2.1]
          simp [removedFiles, List.filterMap_cons]
        · rw [sentMessages_append, IH.2.2.1]
          simp [sentMessages, List.filter_cons]
        · intro s hs
          rw [groupSizes_append] at hs
          rcases List.mem_append.mp hs with h | h
          · simp [groupSizes, List.filterMap_cons] at h
          · exact IH.2.2.2.1 s h
        · rw [writtenFiles_append, IH.2.2.2.2.1]
          have hKi : K - i = (K - (i + 1)) + 1 := by omega
          rw [hKi, List.range'_succ, List.map_cons]
          simp [writtenFiles, List.filterMap_cons]
        · exact IH.2.2.2.2.2

/-! ## Arithmetic facts about the batch-size sequence -/

theorem groupSizesAux_sum :
    ∀ len cur, 0 < len → (groupSizesAux cur len).sum = cur + len := by
  intro len
  induction len with
  | zero => intro cur h; omega
  | succ len ih =>
    intro cur _
    by_cases hc : cur + 1 = GROUP_SIZE ∨ len = 0
    · rw [groupSizesAux, if_pos hc]
      rcases Nat.eq_zero_or_pos len with h0 | hpos
      · subst h0; simp [groupSizesAux]
      · simp [ih 0 hpos]; omega
    · rw [groupSizesAux, if_neg hc]
      simp only [not_or] at hc
      have hpos : 0 < len := Nat.pos_of_ne_zero hc.2
      rw [ih (cur + 1) hpos]
      omega

theorem groupSizesAux_length :
    ∀ len cur, cur < GROUP_SIZE → 0 < len →
      (groupSizesAux cur len).length = (cur + len + (GROUP_SIZE - 1)) / GROUP_SIZE := by
  intro len
  induction len with
  | zero => intro cur _ h; omega
  | succ len ih =>
    intro cur hcur _
    simp only [GROUP_SIZE] at hcur ⊢
    by_cases hc : cur + 1 = GROUP_SIZE ∨ len = 0
    · rw [groupSizesAux, if_pos hc]
      rcases Nat.eq_zero_or_pos len with h0 | hpos
      · subst h0
        simp [groupSizesAux]
        omega
      · have hcur9 : cur + 1 = 9 := by
          rcases hc with h | h
          · simpa [GROUP_SIZE] using h
          · omega
        have := ih 0 (by simp [GROUP_SIZE]) hpos
        simp only [GROUP_SIZE] at this
        simp [this]
        omega
    · rw [groupSizesAux, if_neg hc]
      simp only [not_or] at hc
      have hpos : 0 < len := Nat.pos_of_ne_zero hc.2
      have hcur9 : cur + 1 < GROUP_SIZE := by
        simp only [GROUP_SIZE] at *
        omega
      have := ih (cur + 1) hcur9 hpos
      simp only [GROUP_SIZE] at this
      rw [this]
      omega

theorem groupSizesAux_le :
    ∀ len cur, cur < GROUP_SIZE →
      ∀ s ∈ groupSizesAux cur len, s ≤ GROUP_SIZE := by
  intro len
  induction len with
  | zero => intro cur _ s hs; simp [groupSizesAux] at hs
  | succ len ih =>
    intro cur hcur s hs
    by_cases hc : cur + 1 = GROUP_SIZE ∨ len = 0
    · rw [groupSizesAux, if_pos hc] at hs
      rcases List.mem_cons.mp hs with h | h
      · omega
      · exact ih 0 (by simp [GROUP_SIZE]) s h
    · rw [groupSizesAux, if_neg hc] at hs
      simp only [not_or] at hc
      exact ih (cur + 1) (by omega) s hs

/-! ## The loop never reads the delete oracle

Every `delete_message` call in the source is wrapped in try/except, and none
occurs inside the fetch/deliver loop, so the loop's behaviour is independent
of which deletions succeed. -/

theorem imageLoop_deleteOk (env : Env) (d : Nat → Bool) (chat pid n : Nat) :
    ∀ is b fns,
      imageLoop { env with deleteOk := d } chat pid n is b fns =
      imageLoop env chat pid n is b fns := by
  intro is
  induction is with
  | nil => intro b fns; rfl
  | cons i rest ih =>
    intro b fns
    simp only [imageLoop, download_image]
    cases hfo : env.fetchOk (i - 1) with
    | false => simp [hfo]
    | true =>
      simp only [hfo]
      by_cases hed : env.editOk (i - 1) = false
      · simp [hed]
      · by_cases hfl : b.length + 1 = GROUP_SIZE ∨ i = n
        · by_cases hgp : env.groupOk i = false
          · simp [hed, hfl, hgp]
          · simp [hed, hfl, hgp, ih]
        · simp [hed, hfl, ih]

/-! ## Projections over a leading send-message event -/

theorem countFetches_cons_send (c : Nat) (tx : String) (mi : Nat)
    (mk : Option (List String)) (t : List Event) :
    countFetches (Event.sendMsg c tx mi mk :: t) = countFetches t := by
  simp [countFetches, fetchEvents, List.filter_cons]

theorem editEvents_cons_send (c : Nat) (tx : String) (mi : Nat)
    (mk : Option (List String)) (t : List Event) :
    editEvents (Event.sendMsg c tx mi mk :: t) = editEvents t := by
  simp [editEvents, List.filter_cons]

theorem groupSizes_cons_send (c : Nat) (tx : String) (mi : Nat)
    (mk : Option (List String)) (t : List Event) :
    groupSizes (Event.sendMsg c tx mi mk :: t) = groupSizes t := by
  simp [groupSizes, List.filterMap_cons]

theorem writtenFiles_cons_send (c : Nat) (tx : String) (mi : Nat)
    (mk : Option (List String)) (t : List Event) :
    writtenFiles (Event.sendMsg c tx mi mk :: t) = writtenFiles t := by
  simp [writtenFiles, List.filterMap_cons]

theorem removedFiles_cons_send (c : Nat) (tx : String) (mi : Nat)
    (mk : Option (List String)) (t : List Event) :
    removedFiles (Event.sendMsg c tx mi mk :: t) = removedFiles t := by
  simp [removedFiles, List.filterMap_cons]

theorem sentMessages_cons_send (c : Nat) (tx : String) (mi : Nat)
    (mk : Option (List String)) (t : List Event) :
    sentMessages (Event.sendMsg c tx mi mk :: t) =
      Event.sendMsg c tx mi mk :: sentMessages t := by
  simp [sentMessages, List.filter_cons]

/-! ## Packaged behaviour of `generate_custom_images` -/

/-- The whole run on the success path: n fetches, in-place progress edits
1..n on the progress handle, batch sizes per `groupSizesAux`, every written
file also removed, and exactly two fresh messages (initial progress,
completion). -/
theorem generate_custom_images_success (env : Env) (chat m n : Nat)
    (hf : ∀ j, env.fetchOk j = true) (he : ∀ j, env.editOk j = true)
    (hg : ∀ j, env.groupOk j = true) (hn : 1 ≤ n) :
    countFetches (generate_custom_images env chat m n).1 = n ∧
    editEvents (generate_custom_images env chat m n).1 =
      (List.range' 1 n).map
        (fun i => Event.editMsg chat (m + 1) (progressEditText i n)) ∧
    groupSizes (generate_custom_images env chat m n).1 = groupSizesAux 0 n ∧
    writtenFiles (generate_custom_images env chat m n).1 =
      (List.range' 0 n).map fname ∧
    removedFiles (generate_custom_images env chat m n).1 =
      (List.range' 0 n).map fname ∧
    (generate_custom_images env chat m n).1.head? =
      some (Event.sendMsg chat (initTextCustom n) (m + 1) none) ∧
    sentMessages (generate_custom_images env chat m n).1 =
      [Event.sendMsg chat (initTextCustom n) (m + 1) none,
       Event.sendMsg chat doneText (m + 1 + 1) (some create_main_markup)] ∧
    (generate_custom_images env chat m n).2 = none := by
  have hL := imageLoop_success env chat (m + 1) n hf he hg n 0 [] []
    (by omega) (by simp [GROUP_SIZE])
  have hE := gciLoop_eq_imageLoop env chat (m + 1) n n 0 [] []
  simp only [Nat.zero_add, List.nil_append, List.length_nil] at hL hE
  have hP := proj_runPostlude env chat (m + 1)
    (imageLoop env chat (m + 1) n (List.range' 1 n) [] []).2.1
  have hgci : generate_custom_images env chat m n =
      (Event.sendMsg chat (initTextCustom n) (m + 1) none ::
        ((imageLoop env chat (m + 1) n (List.range' 1 n) [] []).1 ++
          runPostlude env chat (m + 1)
            (imageLoop env chat (m + 1) n (List.range' 1 n) [] []).2.1),
       none) := by
    simp only [generate_custom_images, hE, hL.2.2.2.2.2.2.2]
  rw [hgci]
  refine ⟨?_, ?_, ?_, ?_, ?_, rfl, ?_, rfl⟩
  · rw [countFetches_cons_send, countFetches_append, hL.1, hP.1]
    omega
  · rw [editEvents_cons_send, editEvents_append, hL.2.1, hP.2.1,
      List.append_nil]
  · rw [groupSizes_cons_send, groupSizes_append, hL.2.2.1, hP.2.2.1,
      List.append_nil]
  · rw [writtenFiles_cons_send, writtenFiles_append, hL.2.2.2.1,
      hP.2.2.2.1, List.append_nil]
  · rw [removedFiles_cons_send, removedFiles_append, hL.2.2.2.2.1,
      hP.2.2.2.2.1, hL.2.2.2.2.2.2.1, List.nil_append]
  · rw [sentMessages_cons_send, sentMessages_append, hL.2.2.2.2.2.1,
      hP.2.2.2.2.2, List.nil_append]

/-- The whole run when the fetch of attempt `K` (0-based) fails after `K`
successful ones: `K + 1` fetch attempts, no file ever removed, only the
initial progress message sent (no failure notification), only full batches
delivered, and the exception propagates. -/
theorem generate_custom_images_fetchFail (env : Env) (chat m n K : Nat)
    (he : ∀ j, env.editOk j = true) (hg : ∀ j, env.groupOk j = true)
    (hf : ∀ j, j < K → env.fetchOk j = true) (hfail : env.fetchOk K = false)
    (hK : K < n) :
    countFetches (generate_custom_images env chat m n).1 = K + 1 ∧
    removedFiles (generate_custom_images env chat m n).1 = [] ∧
    sentMessages (generate_custom_images env chat m n).1 =
      [Event.sendMsg chat (initTextCustom n) (m + 1) none] ∧
    (∀ s ∈ groupSizes (generate_custom_images env chat m n).1,
      s = GROUP_SIZE) ∧
    writtenFiles (generate_custom_images env chat m n).1 =
      (List.range' 0 K).map fname ∧
    (generate_custom_images env chat m n).2 = some Outcome.fetchError := by
  have hL := imageLoop_fetchFail env chat (m + 1) n K he hg hf hfail n 0 [] []
    (by omega) (by simp [GROUP_SIZE]) (by omega) (by omega)
  have hE := gciLoop_eq_imageLoop env chat (m + 1) n n 0 [] []
  simp only [Nat.zero_add, Nat.sub_zero] at hL hE
  have hgci : generate_custom_images env chat m n =
      (Event.sendMsg chat (initTextCustom n) (m + 1) none ::
        (imageLoop env chat (m + 1) n (List.range' 1 n) [] []).1,
       some Outcome.fetchError) := by
    simp only [generate_custom_images, hE, hL.2.2.2.2.2]
  rw [hgci]
  refine ⟨?_, ?_, ?_, ?_, ?_, rfl⟩
  · rw [countFetches_cons_send, hL.1]
  · rw [removedFiles_cons_send, hL.2.1]
  · rw [sentMessages_cons_send, hL.2.2.1]
  · intro s hs
    rw [groupSizes_cons_send] at hs
    exact hL.2.2.2.1 s hs
  · rw [writtenFiles_cons_send, hL.2.2.2.2.1]

/-! ## Concrete environments used as inputs for witnesses/counterexamples -/

/-- Everything succeeds; every fetch returns the one-byte payload `[0]`. -/
def allOkEnv : Env :=
  ⟨fun _ => true, fun _ => [0], fun _ => true, fun _ => true, fun _ => true⟩

/-- The first two fetches succeed (with empty payloads), the third network
call fails; all transport operations succeed. -/
def fetchFailEnv : Env :=
  ⟨fun j => decide (j < 2), fun _ => [], fun _ => true, fun _ => true,
   fun _ => true⟩

/-- Every fetch succeeds but every progress edit fails. -/
def editFailEnv : Env :=
  ⟨fun _ => true, fun _ => [], fun _ => false, fun _ => true, fun _ => true⟩

/-- Every call succeeds and the upstream returns an empty body. -/
def emptyPayloadEnv : Env :=
  ⟨fun _ => true, fun _ => [], fun _ => true, fun _ => true, fun _ => true⟩

/-! ## Claims -/

/-- Claim C1: on the success path, a run of `generate_custom_images` for any
requestedCount n in [1, MAX_IMAGES] issues exactly n fetch calls and delivers
exactly ⌈n / GROUP_SIZE⌉ batches in order, whose sizes sum to n, none
exceeding GROUP_SIZE; for n = 20 the delivered batch sizes are [9, 9, 2]. -/
theorem c1_success_batching (env : Env) (chat m n : Nat)
    (hf : ∀ j, env.fetchOk j = true) (he : ∀ j, env.editOk j = true)
    (hg : ∀ j, env.groupOk j = true) (h1 : 1 ≤ n) (hmax : n ≤ MAX_IMAGES) :
    countFetches (generate_custom_images env chat m n).1 = n ∧
    (groupSizes (generate_custom_images env chat m n).1).length =
      (n + (GROUP_SIZE - 1)) / GROUP_SIZE ∧
    (groupSizes (generate_custom_images env chat m n).1).sum = n ∧
    (∀ s ∈ groupSizes (generate_custom_images env chat m n).1,
      s ≤ GROUP_SIZE) ∧
    (n = 20 → groupSizes (generate_custom_images env chat m n).1 = [9, 9, 2]) ∧
    (generate_custom_images env chat m n).2 = none := by
  have H := generate_custom_images_success env chat m n hf he hg h1
  refine ⟨H.1, ?_, ?_, ?_, ?_, H.2.2.2.2.2.2.2⟩
  · rw [H.2.2.1, groupSizesAux_length n 0 (by simp [GROUP_SIZE]) h1]
    simp
  · rw [H.2.2.1, groupSizesAux_sum n 0 h1]
    omega
  · rw [H.2.2.1]
    exact groupSizesAux_le n 0 (by simp [GROUP_SIZE])
  · intro h20
    subst h20
    rw [H.2.2.1]
    decide

/-- Witness for C1 at n = 20 with an all-success environment. -/
theorem c1_success_batching_witness :
    countFetches (generate_custom_images allOkEnv 0 5 20).1 = 20 ∧
    groupSizes (generate_custom_images allOkEnv 0 5 20).1 = [9, 9, 2] := by
  have h := c1_success_batching allOkEnv 0 5 20 (fun _ => rfl) (fun _ => rfl)
    (fun _ => rfl) (by omega) (by decide)
  exact ⟨h.1, h.2.2.2.2.1 rfl⟩

/-- Claim C2, amended: only on the success path is every temporary file
written during the run also removed by run end; the original claim (cleanup
on every exit path) fails, see the counterexample. -/
theorem c2_cleanup_success_only (env : Env) (chat m n : Nat)
    (hf : ∀ j, env.fetchOk j = true) (he : ∀ j, env.editOk j = true)
    (hg : ∀ j, env.groupOk j = true) (h1 : 1 ≤ n) :
    removedFiles (generate_custom_images env chat m n).1 =
      writtenFiles (generate_custom_images env chat m n).1 ∧
    writtenFiles (generate_custom_images env chat m n).1 =
      (List.range' 0 n).map fname ∧
    (generate_custom_images env chat m n).2 = none := by
  have H := generate_custom_images_success env chat m n hf he hg h1
  exact ⟨by rw [H.2.2.2.1, H.2.2.2.2.1], H.2.2.2.1, H.2.2.2.2.2.2.2⟩

/-- Witness for the amended C2 on a success run of 10 images. -/
theorem c2_cleanup_success_only_witness :
    removedFiles (generate_custom_images allOkEnv 0 5 10).1 =
      writtenFiles (generate_custom_images allOkEnv 0 5 10).1 := by
  exact (c2_cleanup_success_only allOkEnv 0 5 10 (fun _ => rfl) (fun _ => rfl)
    (fun _ => rfl) (by omega)).1

/-- Counterexample to C2 as stated: on the fetch-failure exit path (third
fetch of a 10-image run fails) two temporary files were written and none is
ever removed — the cleanup loop is unreachable because the exception
propagates before it. -/
theorem c2_cleanup_counterexample :
    writtenFiles (generate_custom_images fetchFailEnv 0 5 10).1 =
      ["img0.jpg", "img1.jpg"] ∧
    removedFiles (generate_custom_images fetchFailEnv 0 5 10).1 = [] ∧
    ¬ (∀ f ∈ writtenFiles (generate_custom_images fetchFailEnv 0 5 10).1,
        f ∈ removedFiles (generate_custom_images fetchFailEnv 0 5 10).1) := by
  decide

/-- Claim C3, amended: when the k-th fetch (1-based) of an n-image run fails,
no further fetch attempts are made (exactly k GET calls) and no partial batch
is sent (every delivered batch is full); but — contrary to the claim as
stated — no cleanup runs (zero file removals; the k-1 fetched files leak) and
no failure notification is sent (the only message ever sent is the initial
progress message): the exception simply propagates. -/
theorem c3_fetch_failure_no_cleanup (env : Env) (chat m n k : Nat)
    (he : ∀ j, env.editOk j = true) (hg : ∀ j, env.groupOk j = true)
    (hf : ∀ j, j + 1 < k → env.fetchOk j = true)
    (hfail : env.fetchOk (k - 1) = false) (hk1 : 1 ≤ k) (hkn : k ≤ n) :
    countFetches (generate_custom_images env chat m n).1 = k ∧
    (∀ s ∈ groupSizes (generate_custom_images env chat m n).1,
      s = GROUP_SIZE) ∧
    removedFiles (generate_custom_images env chat m n).1 = [] ∧
    sentMessages (generate_custom_images env chat m n).1 =
      [Event.sendMsg chat (initTextCustom n) (m + 1) none] ∧
    writtenFiles (generate_custom_images env chat m n).1 =
      (List.range' 0 (k - 1)).map fname ∧
    (generate_custom_images env chat m n).2 = some Outcome.fetchError := by
  have hf2 : ∀ j, j < k - 1 → env.fetchOk j = true := fun j hj => hf j (by omega)
  have H := generate_custom_images_fetchFail env chat m n (k - 1) he hg hf2
    hfail (by omega)
  refine ⟨?_, H.2.2.2.1, H.2.1, H.2.2.1, H.2.2.2.2.1, H.2.2.2.2.2⟩
  rw [H.1]
  omega

/-- Witness for the amended C3: fetch 3 of 10 fails. -/
theorem c3_fetch_failure_no_cleanup_witness :
    countFetches (generate_custom_images fetchFailEnv 0 5 10).1 = 3 ∧
    (generate_custom_images fetchFailEnv 0 5 10).2 = some Outcome.fetchError := by
  have h := c3_fetch_failure_no_cleanup fetchFailEnv 0 5 10 3 (fun _ => rfl)
    (fun _ => rfl) (fun j hj => by simp [fetchFailEnv]; omega) rfl
    (by omega) (by omega)
  exact ⟨h.1, h.2.2.2.2.2⟩

/-- Counterexample to C3 as stated: at the concrete failing run (fetch 3 of
10 fails) the two previously written files are never released and the only
outbound message is the initial progress notification — no failure
notification is reported to the user. -/
theorem c3_fetch_failure_counterexample :
    writtenFiles (generate_custom_images fetchFailEnv 0 5 10).1 =
      ["img0.jpg", "img1.jpg"] ∧
    removedFiles (generate_custom_images fetchFailEnv 0 5 10).1 = [] ∧
    sentMessages (generate_custom_images fetchFailEnv 0 5 10).1 =
      [Event.sendMsg 0 (initTextCustom 10) 6 none] ∧
    (generate_custom_images fetchFailEnv 0 5 10).2 = some Outcome.fetchError := by
  decide

/-- Claim C4: on the success path the progress notification is edited in
place on the one progress handle (the message sent at the start of the run)
exactly n times, with the completed count increasing one by one from 1 to n
(the edit events are exactly the in-order images of 1..n). -/
theorem c4_progress_updates (env : Env) (chat m n : Nat)
    (hf : ∀ j, env.fetchOk j = true) (he : ∀ j, env.editOk j = true)
    (hg : ∀ j, env.groupOk j = true) (h1 : 1 ≤ n) :
    (generate_custom_images env chat m n).1.head? =
      some (Event.sendMsg chat (initTextCustom n) (m + 1) none) ∧
    editEvents (generate_custom_images env chat m n).1 =
      (List.range' 1 n).map
        (fun i => Event.editMsg chat (m + 1) (progressEditText i n)) ∧
    (editEvents (generate_custom_images env chat m n).1).length = n := by
  have H := generate_custom_images_success env chat m n hf he hg h1
  refine ⟨H.2.2.2.2.2.1, H.2.1, ?_⟩
  rw [H.2.1]
  simp [List.length_map, List.length_range']

/-- Witness for C4 at n = 3: the three in-place edits on handle 6, in
order. -/
theorem c4_progress_updates_witness :
    editEvents (generate_custom_images allOkEnv 0 5 3).1 =
      [Event.editMsg 0 6 (progressEditText 1 3),
       Event.editMsg 0 6 (progressEditText 2 3),
       Event.editMsg 0 6 (progressEditText 3 3)] := by
  have h := c4_progress_updates allOkEnv 0 5 3 (fun _ => rfl) (fun _ => rfl)
    (fun _ => rfl) (by omega)
  rw [h.2.1]
  rfl

/-- Claim C5, amended: a failure of the progress-edit transport operation is
NOT swallowed — `edit_message_text` is outside any try/except, so the
exception propagates, aborting the run after a single fetch (no further
fetches, no cleanup): only `delete_message` calls are best-effort. -/
theorem c5_edit_failure_propagates (env : Env) (chat m n : Nat)
    (hf0 : env.fetchOk 0 = true) (he0 : env.editOk 0 = false) (hn : 1 ≤ n) :
    generate_custom_images env chat m n =
      ([Event.sendMsg chat (initTextCustom n) (m + 1) none,
        Event.httpGet IMAGE_URL,
        Event.fileWrite (fname 0) (env.fetchContent 0),
        Event.editMsg chat (m + 1) (progressEditText 1 n)],
       some Outcome.editError) ∧
    countFetches (generate_custom_images env chat m n).1 = 1 := by
  obtain ⟨l, rfl⟩ : ∃ l, n = l + 1 := ⟨n - 1, by omega⟩
  have hrun : generate_custom_images env chat m (l + 1) =
      ([Event.sendMsg chat (initTextCustom (l + 1)) (m + 1) none,
        Event.httpGet IMAGE_URL,
        Event.fileWrite (fname 0) (env.fetchContent 0),
        Event.editMsg chat (m + 1) (progressEditText 1 (l + 1))],
       some Outcome.editError) := by
    simp [generate_custom_images, List.range'_succ, gciLoop, download_image,
      hf0, he0]
  refine ⟨hrun, ?_⟩
  rw [hrun]
  rfl

/-- Witness for the amended C5: requesting 2 images with a failing edit
transport aborts after one fetch with the edit error propagating. -/
theorem c5_edit_failure_propagates_witness :
    countFetches (generate_custom_images editFailEnv 0 5 2).1 = 1 := by
  exact (c5_edit_failure_propagates editFailEnv 0 5 2 rfl rfl (by omega)).2

/-- Counterexample to C5 as stated: with 2 images requested and the edit
transport failing, the run aborts with the edit error after only 1 of the 2
fetches — the edit failure is propagated, not swallowed. -/
theorem c5_edit_failure_counterexample :
    (generate_custom_images editFailEnv 0 5 2).2 = some Outcome.editError ∧
    countFetches (generate_custom_images editFailEnv 0 5 2).1 = 1 := by
  decide

/-- Claim C6, amended: the per-image fetch fails (exception propagates) if
and only if the network call itself fails; the response body is written to
the temporary file unconditionally — an empty or non-image payload is stored
as a fetched image, not detected and not raised as an error. -/
theorem c6_download_fails_only_on_network (env : Env) (k : Nat) :
    ((download_image env k).2 = none ↔ env.fetchOk k = false) ∧
    writtenFiles (download_image env k).1 =
      (if env.fetchOk k = true then [fname k] else []) ∧
    countFetches (download_image env k).1 = 1 := by
  by_cases h : env.fetchOk k = true
  · refine ⟨?_, ?_, ?_⟩ <;>
      simp [download_image, h, writtenFiles, countFetches, fetchEvents,
        List.filterMap_cons, List.filter_cons]
  · rw [Bool.not_eq_true] at h
    refine ⟨?_, ?_, ?_⟩ <;>
      simp [download_image, h, writtenFiles, countFetches, fetchEvents,
        List.filterMap_cons, List.filter_cons]

/-- Counterexample to C6 as stated: the network call succeeds and the body
is empty, yet `download_image` succeeds and stores the empty payload — so
"fails iff the network call fails or the payload is non-image/empty" is
violated already in its "empty" disjunct. -/
theorem c6_empty_payload_counterexample :
    ¬ ((download_image emptyPayloadEnv 0).2 = none ↔
        (emptyPayloadEnv.fetchOk 0 = false ∨
         emptyPayloadEnv.fetchContent 0 = [])) := by
  decide

/-- Claim C7: on the custom-quantity prompt, the escape keyword (the
lower-cased text equal to the back button label) returns to the main menu
with no fetch; an `int(...)`-parsable value in 1..MAX_IMAGES starts a run
with exactly that count; any other input — unparsable, or a number out of
range such as "150" — is re-prompted (with the handler re-registered) and no
fetch is attempted. -/
theorem c7_custom_quantity_validation (env : Env) (chat m : Nat)
    (text : String) :
    (pyToLower text = "назад" →
      handle_custom_quantity env chat m text =
        ([Event.sendMsg chat backText (m + 1) (some create_main_markup)],
         none) ∧
      countFetches (handle_custom_quantity env chat m text).1 = 0) ∧
    (∀ q : Int, pyToLower text ≠ "назад" → pyParseInt text = some q →
      1 ≤ q → q ≤ (MAX_IMAGES : Int) →
      handle_custom_quantity env chat m text =
        generate_custom_images env chat m q.toNat) ∧
    (pyToLower text ≠ "назад" →
      (∀ q : Int, pyParseInt text = some q → q < 1 ∨ (MAX_IMAGES : Int) < q) →
      handle_custom_quantity env chat m text =
        ([Event.sendMsg chat retryText (m + 1) (some create_quantity_markup),
          Event.registerNextStep (m + 1)], none) ∧
      countFetches (handle_custom_quantity env chat m text).1 = 0) := by
  refine ⟨?_, ?_, ?_⟩
  · intro hb
    have hrun : handle_custom_quantity env chat m text =
        ([Event.sendMsg chat backText (m + 1) (some create_main_markup)],
         none) := by
      simp [handle_custom_quantity, hb]
    exact ⟨hrun, by rw [hrun]; rfl⟩
  · intro q hb hq h1 h2
    simp [handle_custom_quantity, hb, hq, h1, h2]
  · intro hb hr
    cases hp : pyParseInt text with
    | none =>
      have hrun : handle_custom_quantity env chat m text =
          ([Event.sendMsg chat retryText (m + 1) (some create_quantity_markup),
            Event.registerNextStep (m + 1)], none) := by
        simp [handle_custom_quantity, hb, hp]
      exact ⟨hrun, by rw [hrun]; rfl⟩
    | some q =>
      have hcond : ¬ (1 ≤ q ∧ q ≤ (MAX_IMAGES : Int)) := by
        rcases hr q hp with h | h <;> omega
      have hrun : handle_custom_quantity env chat m text =
          ([Event.sendMsg chat retryText (m + 1) (some create_quantity_markup),
            Event.registerNextStep (m + 1)], none) := by
        simp [handle_custom_quantity, hb, hp, hcond]
      exact ⟨hrun, by rw [hrun]; rfl⟩

/-- Witness for C7 at the spec's Scenario E input "150": rejected with a
re-prompt and no fetch attempted. -/
theorem c7_custom_quantity_validation_witness :
    handle_custom_quantity allOkEnv 0 5 "150" =
      ([Event.sendMsg 0 retryText 6 (some create_quantity_markup),
        Event.registerNextStep 6], none) ∧
    countFetches (handle_custom_quantity allOkEnv 0 5 "150").1 = 0 := by
  refine (c7_custom_quantity_validation allOkEnv 0 5 "150").2.2 (by decide) ?_
  intro q hq
  have h150 : pyParseInt "150" = some (150 : Int) := by decide
  rw [h150] at hq
  injection hq with h2
  subst h2
  right
  decide

/-- Claim C8, amended: the fixed "one image" intent is handled by the
separate `send_single_image` path, not by the batch relay: exactly 1 fetch,
one plain photo send (no grouped delivery), no progress notification and no
in-place edit; the file is removed, the triggering message deleted
best-effort, and the completion message sent. -/
theorem c8_single_image_path (env : Env) (chat m : Nat)
    (hf0 : env.fetchOk 0 = true) :
    handle_text env chat m "Получить изображение" =
      ([Event.delMsg chat (m - 1) (env.deleteOk (m - 1)),
        Event.httpGet IMAGE_URL,
        Event.fileWrite (fname 0) (env.fetchContent 0),
        Event.photo chat (env.fetchContent 0),
        Event.fileRemove (fname 0),
        Event.delMsg chat m (env.deleteOk m),
        Event.sendMsg chat doneText (m + 1) (some create_main_markup)],
       none) ∧
    countFetches (handle_text env chat m "Получить изображение").1 = 1 ∧
    groupSizes (handle_text env chat m "Получить изображение").1 = [] ∧
    editEvents (handle_text env chat m "Получить изображение").1 = [] := by
  have hs : pyToLower (pyStrip "Получить изображение") =
      "получить изображение" := by decide
  have hrun : handle_text env chat m "Получить изображение" =
      ([Event.delMsg chat (m - 1) (env.deleteOk (m - 1)),
        Event.httpGet IMAGE_URL,
        Event.fileWrite (fname 0) (env.fetchContent 0),
        Event.photo chat (env.fetchContent 0),
        Event.fileRemove (fname 0),
        Event.delMsg chat m (env.deleteOk m),
        Event.sendMsg chat doneText (m + 1) (some create_main_markup)],
       none) := by
    simp [handle_text, handle_text_branch, hs, send_single_image,
      download_image, hf0]
  refine ⟨hrun, ?_, ?_, ?_⟩ <;> rw [hrun] <;> rfl

/-- Witness for the amended C8. -/
theorem c8_single_image_path_witness :
    countFetches (handle_text allOkEnv 0 5 "Получить изображение").1 = 1 ∧
    groupSizes (handle_text allOkEnv 0 5 "Получить изображение").1 = [] := by
  have h := c8_single_image_path allOkEnv 0 5 rfl
  exact ⟨h.2.1, h.2.2.1⟩

/-- Counterexample to C8 as stated: on the concrete "one image" request the
trace contains no grouped delivery at all, no in-place progress edit, and no
"0/n"-style progress message — contradicting "delivers exactly 1 batch as a
grouped delivery and shows progress 0/1 then 1/1". -/
theorem c8_no_batch_no_progress_counterexample :
    groupSizes (handle_text allOkEnv 0 5 "Получить изображение").1 = [] ∧
    editEvents (handle_text allOkEnv 0 5 "Получить изображение").1 = [] ∧
    (∀ e ∈ sentMessages (handle_text allOkEnv 0 5 "Получить изображение").1,
      e ≠ Event.sendMsg 0 (initTextCustom 1) 6 none) := by
  decide

/-- Claim C9, amended: for every count and environment the two runs agree on
every side effect and on the outcome except for the text of the initial
progress notification, which differs between `send_multiple_images` and
`generate_custom_images`. -/
theorem c9_same_except_initial_text (env : Env) (chat m n : Nat) :
    (send_multiple_images env chat m n).1.head? =
      some (Event.sendMsg chat (initTextMulti n) (m + 1) none) ∧
    (generate_custom_images env chat m n).1.head? =
      some (Event.sendMsg chat (initTextCustom n) (m + 1) none) ∧
    (send_multiple_images env chat m n).1.tail =
      (generate_custom_images env chat m n).1.tail ∧
    (send_multiple_images env chat m n).2 =
      (generate_custom_images env chat m n).2 := by
  have hE := gciLoop_eq_imageLoop env chat (m + 1) n n 0 [] []
  simp only [Nat.zero_add] at hE
  cases ho : (imageLoop env chat (m + 1) n (List.range' 1 n) [] []).2.2 with
  | none =>
    simp [send_multiple_images, generate_custom_images, hE, ho]
  | some e =>
    simp [send_multiple_images, generate_custom_images, hE, ho]

/-- Counterexample to C9 as stated: already for count 1 the two runs differ
(in the first event's text), though their tails agree. -/
theorem c9_initial_text_counterexample :
    send_multiple_images allOkEnv 0 5 1 ≠ generate_custom_images allOkEnv 0 5 1 ∧
    (send_multiple_images allOkEnv 0 5 1).1.tail =
      (generate_custom_images allOkEnv 0 5 1).1.tail := by
  decide

/-- The dispatch of `handle_text` never depends on whether the best-effort
deletion of message `m - 1` succeeded. -/
theorem handle_text_branch_deleteOk (env : Env) (b : Bool) (chat m : Nat)
    (t : String) (hm : 1 ≤ m) :
    handle_text_branch
        { env with deleteOk := fun j => if j = m - 1 then b else env.deleteOk j }
        chat m t =
      handle_text_branch env chat m t := by
  have hne_m : ¬ (m = m - 1) := by omega
  have hne_m1 : ¬ (m + 1 = m - 1) := by omega
  have hL := imageLoop_deleteOk env
    (fun j => if j = m - 1 then b else env.deleteOk j) chat (m + 1) 9
  simp only [handle_text_branch]
  by_cases h1 : t = "получить изображение"
  · by_cases hf0 : env.fetchOk 0 = true
    · simp [h1, send_single_image, download_image, hf0, hne_m]
    · rw [Bool.not_eq_true] at hf0
      simp [h1, send_single_image, download_image, hf0]
  · by_cases h2 : t = "получить 9 изображений"
    · simp only [h1, h2, if_neg, if_pos, if_false, if_true]
      cases ho : (imageLoop env chat (m + 1) 9 (List.range' 1 9) [] []).2.2 with
      | none =>
        simp [h1, send_multiple_images, hL, ho, runPostlude, hne_m1]
      | some e =>
        simp [h1, send_multiple_images, hL, ho]
    · by_cases h3 : t = "своё количество"
      · simp [h1, h2, h3, ask_for_custom_quantity]
      · simp [h1, h2, h3]

/-- Claim C10: before dispatching, `handle_text` attempts to delete the chat
message whose id is one less than the incoming message's id, and a failure
of this deletion is swallowed: the dispatched trace and outcome are the same
whatever that deletion's result. -/
theorem c10_handle_text_deletes_previous (env : Env) (chat m : Nat)
    (text : String) (b : Bool) (hm : 1 ≤ m) :
    (handle_text env chat m text).1.head? =
      some (Event.delMsg chat (m - 1) (env.deleteOk (m - 1))) ∧
    (handle_text
        { env with deleteOk := fun j => if j = m - 1 then b else env.deleteOk j }
        chat m text).1.tail =
      (handle_text env chat m text).1.tail ∧
    (handle_text
        { env with deleteOk := fun j => if j = m - 1 then b else env.deleteOk j }
        chat m text).2 =
      (handle_text env chat m text).2 := by
  refine ⟨rfl, ?_, ?_⟩
  · simp only [handle_text, List.tail_cons]
    rw [handle_text_branch_deleteOk env b chat m _ hm]
  · simp only [handle_text]
    rw [handle_text_branch_deleteOk env b chat m _ hm]

/-- Witness for C10: a free-text message with id 5 first attempts to delete
message 4, and flipping that deletion's result leaves the dispatch
unchanged. -/
theorem c10_handle_text_deletes_previous_witness :
    (handle_text allOkEnv 0 5 "привет").1.head? =
      some (Event.delMsg 0 4 (allOkEnv.deleteOk 4)) ∧
    (handle_text
        { allOkEnv with deleteOk := fun j => if j = 4 then false else allOkEnv.deleteOk j }
        0 5 "привет").1.tail =
      (handle_text allOkEnv 0 5 "привет").1.tail := by
  have h := c10_handle_text_deletes_previous allOkEnv 0 5 "привет" false
    (by omega)
  exact ⟨h.1, h.2.1⟩

end FaceBot
